import Mathlib

/-!
Verification development for the IYYA legal-assistant repository
(`config.py`, `document_loader.py`, `vector_store.py`, `sync_documents.py`,
`rag_chain.py`, `api.py`, `app.py`).

The Python sources are shallowly embedded: pure code becomes Lean functions;
external collaborators (the PDF/Word parsing libraries, the text splitter,
the embedding service, the Qdrant backend, the language model) are explicit
oracle parameters; Python exceptions become `Except` values; the Qdrant
collection and the document folder are explicit state threaded through the
sync functions.
-/

namespace Iyya

/-! ## Python string primitives

Python strings are modelled as Lean `String`, with the operations the code
uses (`str.lower`, `str.strip`, `in`, `startswith`-style regex-prefix tests)
implemented on the underlying character lists so that every definition
evaluates inside the kernel.
-/

/-- ASCII lower-casing of one character.  Python `str.lower()` is
Unicode-aware; the classifier patterns and keywords in `rag_chain.py` are
already lower-case and every input considered in the claims is cased only in
ASCII, where the two agree. -/
def lowerChar (c : Char) : Char :=
  if 65 ≤ c.toNat ∧ c.toNat ≤ 90 then Char.ofNat (c.toNat + 32) else c

/-- Model of Python `s.lower()` (ASCII fragment, see `lowerChar`). -/
def pyLower (cs : List Char) : List Char := cs.map lowerChar

/-- Whitespace test used by Python `str.strip()` (space, tab, newline,
carriage return, vertical tab, form feed). -/
def isSpaceCh (c : Char) : Bool :=
  c == ' ' || c == '\t' || c == '\n' || c == '\r' || c.toNat == 11 || c.toNat == 12

/-- Model of Python `s.strip()`. -/
def pyStrip (cs : List Char) : List Char :=
  ((cs.dropWhile isSpaceCh).reverse.dropWhile isSpaceCh).reverse

/-- Character-list prefix test (Python `re.search` with a `^`-anchored
literal alternative succeeds iff one alternative is a prefix). -/
def isPre : List Char → List Char → Bool
  | [], _ => true
  | _ :: _, [] => false
  | p :: ps, c :: cs => p == c && isPre ps cs

/-- Model of Python `needle in hay` on strings (contiguous substring). -/
def isSub (needle : List Char) : List Char → Bool
  | [] => isPre needle []
  | c :: cs => isPre needle (c :: cs) || isSub needle cs

/-! ## Query classifier (`rag_chain.py`, `CONVERSATIONAL_PATTERNS` and
`is_conversational_query`)

Each regular expression in `CONVERSATIONAL_PATTERNS` is a `^`-anchored
alternation of literals, two of them `$`-terminated and one containing the
character class `[ -]` (which in a regex denotes the code-point range from
space `0x20` to hyphen `0x2D`).  `re.search` on such a pattern is a prefix
test (respectively an exact-equality test for the `$`-terminated ones).
`re.IGNORECASE` is absorbed by the preceding `question.lower()`.
-/

/-- Literal alternatives of the `^`-anchored, non-`$` patterns 1-4:
greetings, "how are you", thanks, farewells. -/
def PREFIX_LITERALS : List String :=
  ["salut", "bonjour", "bonsoir", "hello", "hi", "hey", "coucou",
   "ça va", "comment vas", "comment tu vas", "tu vas bien", "comment allez",
   "merci", "thanks", "thank you",
   "au revoir", "bye", "à bientôt", "à plus"]

/-- Literal alternatives of the two `^...$` patterns 6-7:
short acknowledgements and yes/no. -/
def EXACT_LITERALS : List String :=
  ["ok", "d\x27accord", "compris", "super", "parfait", "génial", "cool",
   "oui", "non", "ouais", "nope"]

/-- Character class `[ -]` of pattern 5: the code points from `0x20` (space)
to `0x2D` (hyphen). -/
def inSepClass (c : Char) : Bool :=
  32 ≤ c.toNat && c.toNat ≤ 45

/-- Test for an alternative of pattern 5 of the shape `a[ -]b`: the input
starts with `a`, then one character of the class `[ -]`, then `b`. -/
def isPreWithSep (a b : List Char) (cs : List Char) : Bool :=
  isPre a cs &&
    match cs.drop a.length with
    | [] => false
    | c :: rest => inSepClass c && isPre b rest

/-- Pattern 5, `^(qui es[ -]tu|tu es qui|c\x27est quoi|présente[ -]toi)`. -/
def matchesSelfIntro (cs : List Char) : Bool :=
  isPreWithSep "qui es".data "tu".data cs ||
  isPre "tu es qui".data cs ||
  isPre "c\x27est quoi".data cs ||
  isPreWithSep "présente".data "toi".data cs

/-- Disjunction of all seven `CONVERSATIONAL_PATTERNS` applied to the
lower-cased, stripped question. -/
def matchesConversationalPatterns (cs : List Char) : Bool :=
  PREFIX_LITERALS.any (fun p => isPre p.data cs) ||
  matchesSelfIntro cs ||
  EXACT_LITERALS.any (fun p => p.data == cs)

/-- Domain-keyword list of the short-question heuristic in
`is_conversational_query`. -/
def FISCAL_KEYWORDS : List String :=
  ["impôt", "taxe", "tva", "is", "ir", "fiscal",
   "taux", "article", "cgi", "déclar", "exonér",
   "société", "revenu", "bénéfice", "auto-entrepreneur"]

/-- Model of `is_conversational_query` (`rag_chain.py`): the question is
lower-cased and stripped; if any conversational pattern matches the result is
`true`; otherwise a question shorter than 15 characters containing no fiscal
keyword is also conversational; otherwise `false` (substantive). -/
def is_conversational_query (question : String) : Bool :=
  let ql := pyStrip (pyLower question.data)
  if matchesConversationalPatterns ql then true
  else if ql.length < 15 && !(FISCAL_KEYWORDS.any (fun k => isSub k.data ql)) then true
  else false

/-! ## Data model: documents, payloads, the Qdrant collection

`PyDoc` models a LangChain `Document`: its text plus the metadata keys the
repository reads or writes (`file_name`, `module`, `page`, `chunk_id`,
`source`); each key is optional, mirroring `metadata.get(key, default)`.
`Payload` models the payload stored with each Qdrant point by
`VectorStoreManager.add_documents`; the accompanying embedding vector is
supplied by the external embedding service and plays no role in the
properties below, so it is not represented.  Paths are abbreviated to file
names. -/

structure PyDoc where
  page_content : String
  page : Option Nat := none
  file_name : Option String := none
  module : Option String := none
  chunk_id : Option Nat := none
  source : Option String := none
  deriving DecidableEq, Repr

structure Payload where
  content : String
  file_name : String
  page : Nat
  chunk_id : Nat
  source : String
  module : String
  deriving DecidableEq, Repr

/-- State of one Qdrant collection: `none` when the collection has not been
created, otherwise the list of stored point payloads (point ids are fresh
`uuid4` tokens and never inspected, so they are not modelled). -/
def Index : Type := Option (List Payload)

instance : DecidableEq Index := by unfold Index; infer_instance

instance {ε α : Type _} [DecidableEq ε] [DecidableEq α] :
    DecidableEq (Except ε α) := fun x y =>
  match x, y with
  | Except.error a, Except.error b =>
      if h : a = b then isTrue (by rw [h])
      else isFalse (fun hh => h (Except.error.inj hh))
  | Except.ok a, Except.ok b =>
      if h : a = b then isTrue (by rw [h])
      else isFalse (fun hh => h (Except.ok.inj hh))
  | Except.error _, Except.ok _ => isFalse (fun hh => Except.noConfusion hh)
  | Except.ok _, Except.error _ => isFalse (fun hh => Except.noConfusion hh)

/-- Model of `VectorStoreManager.create_collection`: create the collection
empty if absent, no-op otherwise. -/
def create_collection (idx : Index) : Index :=
  match idx with
  | none => some []
  | some ps => some ps

/-- Payload written for one chunk by `add_documents`
(`vector_store.py`): each metadata key is read with the source's default. -/
def payloadOf (d : PyDoc) : Payload :=
  { content := d.page_content
    file_name := d.file_name.getD "unknown"
    page := d.page.getD 0
    chunk_id := d.chunk_id.getD 0
    source := d.source.getD ""
    module := d.module.getD "" }

/-- Model of `VectorStoreManager.add_documents`: ensure the collection
exists, then upsert one point per document with a fresh id and the payload
of `payloadOf`.  The batching of the embedding calls (100 documents at a
time) does not change the set of stored points and is not represented. -/
def add_documents (idx : Index) (docs : List PyDoc) : Index :=
  match create_collection idx with
  | none => none
  | some ps => some (ps ++ docs.map payloadOf)

/-- Model of `VectorStoreManager.delete_by_file`: remove every point whose
payload `file_name` equals the argument.  Qdrant raises on a delete against
a collection that does not exist, modelled as `Except.error`. -/
def delete_by_file (idx : Index) (fname : String) : Except String Index :=
  match idx with
  | none => Except.error "collection does not exist"
  | some ps => Except.ok (some (ps.filter (fun p => p.file_name ≠ fname)))

/-- Model of `VectorStoreManager.clear_collection`: drop and recreate when
the collection exists, no-op otherwise. -/
def clear_collection (idx : Index) : Index :=
  match idx with
  | none => none
  | some _ => some []

/-- Number of points stored for a given `file_name` (the quantity the
re-sync claims compare; `collection_info().count` is `countAll`). -/
def countFile (idx : Index) (fname : String) : Nat :=
  match idx with
  | none => 0
  | some ps => (ps.filter (fun p => p.file_name = fname)).length

/-! ## Document loader (`document_loader.py`)

A source file is modelled by its name, its (literal, case-preserved) suffix
and two oracle fields describing what the external parsing libraries do
with its bytes: `pdfLoad` is the outcome of `PyPDFLoader.load()` (the page
documents produced, or the message of the exception raised), and
`docxText` is the text `python-docx` extraction yields (paragraph and table
text, whose assembly into one string is abstracted as the file's extracted
content), or the message of the exception raised.  Only the field selected
by the file's suffix is ever consulted, mirroring the `if/elif` on
`pdf_path.suffix.lower()`. -/

structure SrcFile where
  name : String
  ext : String
  pdfLoad : Except String (List PyDoc) := Except.error "unused"
  docxText : Except String String := Except.error "unused"
  deriving DecidableEq, Repr

/-- Python exceptions of `document_loader.py`.  `PDFLoadError` and
`DocumentLoadError` are sibling subclasses of `Exception`; neither catches
the other. -/
inductive PyExc where
  | pdfLoadError (msg : String)
  | documentLoadError (msg : String)
  deriving DecidableEq, Repr

/-- Message carried by an exception (Python `str(e)`). -/
def PyExc.msg : PyExc → String
  | .pdfLoadError m => m
  | .documentLoadError m => m

/-- Environment of the sync pipeline: the external text splitter
(`RecursiveCharacterTextSplitter.split_documents`, an imported library
function) and whether the optional `python-docx` dependency is installed. -/
structure SyncEnv where
  splitter : List PyDoc → List PyDoc
  docxInstalled : Bool

/-- Model of `FolderDocumentProcessor._load_word_document`: raises
`DocumentLoadError` when `python-docx` is missing or when the library fails;
otherwise yields a single document with `page = 1` and the file's
metadata. -/
def load_word_document (env : SyncEnv) (module_id : String) (f : SrcFile) :
    Except PyExc (List PyDoc) :=
  if ¬env.docxInstalled then
    Except.error (.documentLoadError
      "python-docx n\x27est pas installé. Exécutez: pip install python-docx")
  else
    match f.docxText with
    | Except.ok t =>
        Except.ok [{ page_content := t, file_name := some f.name,
                     module := some module_id, page := some 1,
                     source := some f.name }]
    | Except.error e =>
        let n := f.name
        Except.error (.documentLoadError
          s!"Erreur lors du chargement de \x27{n}\x27: {e}")

/-- Model of `FolderDocumentProcessor.load_single_pdf`: branch on the
lower-cased suffix; PDF pages come from the external loader, Word files from
`load_word_document`, any other suffix raises `DocumentLoadError`
("Format non supporté"); library failures are wrapped into
`DocumentLoadError` carrying the file name; finally `file_name` and `module`
are stamped onto every document. -/
def load_single_pdf (env : SyncEnv) (module_id : String) (f : SrcFile) :
    Except PyExc (List PyDoc) :=
  let ext := String.mk (pyLower f.ext.data)
  let stamped : List PyDoc → List PyDoc := fun docs =>
    docs.map (fun d => { d with file_name := some f.name, module := some module_id })
  if ext == ".pdf" then
    match f.pdfLoad with
    | Except.ok docs => Except.ok (stamped docs)
    | Except.error e =>
        let n := f.name
        Except.error (.documentLoadError
          s!"Erreur lors du chargement de \x27{n}\x27: {e}")
  else if ext == ".doc" || ext == ".docx" then
    match load_word_document env module_id f with
    | Except.ok docs => Except.ok (stamped docs)
    | Except.error e => Except.error e
  else
    Except.error (.documentLoadError
      s!"Format non supporté: {ext}. Formats supportés: PDF, DOC, DOCX")

/-- Model of `FolderDocumentProcessor.split_documents`: apply the external
splitter, then stamp `chunk_id` (sequential from 0), `file_name` and
`module` onto every chunk. -/
def split_documents (env : SyncEnv) (module_id : String)
    (docs : List PyDoc) (file_name : String) : List PyDoc :=
  (env.splitter docs).enum.map (fun pr =>
    { pr.2 with chunk_id := some pr.1, file_name := some file_name,
                module := some module_id })

/-- Model of `FolderDocumentProcessor.process_single_file`: load, then
split. -/
def process_single_file (env : SyncEnv) (module_id : String) (f : SrcFile) :
    Except PyExc (List PyDoc) :=
  match load_single_pdf env module_id f with
  | Except.ok docs => Except.ok (split_documents env module_id docs f.name)
  | Except.error e => Except.error e

/-- Supported extensions (`SUPPORTED_EXTENSIONS`), matched case-sensitively
by `folder_path.glob`. -/
def SUPPORTED_EXTENSIONS : List String := [".pdf", ".doc", ".docx"]

/-- Lexicographic order on character lists by code point, the order Python
uses to compare the lower-cased names in `sorted(..., key=...)`. -/
def charListLt : List Char → List Char → Bool
  | [], [] => false
  | [], _ :: _ => true
  | _ :: _, [] => false
  | a :: as, b :: bs =>
      if a.toNat < b.toNat then true
      else if b.toNat < a.toNat then false
      else charListLt as bs

/-- Stable insertion of `x` before the first element strictly greater than
it (Python `sorted` is stable). -/
def insertByName (x : SrcFile) : List SrcFile → List SrcFile
  | [] => [x]
  | y :: ys =>
      if charListLt (pyLower y.name.data) (pyLower x.name.data) then
        y :: insertByName x ys
      else x :: y :: ys

/-- Stable sort by lower-cased file name. -/
def sortByName : List SrcFile → List SrcFile
  | [] => []
  | x :: xs => insertByName x (sortByName xs)

/-- Model of `FolderDocumentProcessor.get_pdf_files`: an absent folder
yields no files; otherwise the files with a supported extension, sorted by
lower-cased name. -/
def get_pdf_files (folder : Option (List SrcFile)) : List SrcFile :=
  match folder with
  | none => []
  | some fs => sortByName (fs.filter (fun f => SUPPORTED_EXTENSIONS.contains f.ext))

/-! ## Sync orchestrator (`sync_documents.py`)

The module configuration is abstracted to the data it denotes: the module
id, the contents of its document folder (`Option (List SrcFile)`, `none`
when the folder does not exist) and its collection state (`Index`).
(`src/config.py`'s module dictionaries lack the `documents_folder` key that
`create_folder_processor` reads, a version skew among the checked-in files
that is orthogonal to the orchestration logic treated here.)  Index
operations themselves are modelled as succeeding; backend reachability is
treated separately with the query-path model. -/

structure SyncReport where
  files_processed : Nat
  chunks_added : Nat
  errors : List String
  success : Bool
  deriving DecidableEq, Repr

/-- Per-file loop of `sync_module`, consuming `process_all_files()`:
a successful file's chunks are upserted (when non-empty) and counted; a
`PDFLoadError` is recorded as "`file`: `msg`" and the loop continues; any
other exception — in particular every `DocumentLoadError` raised by
`process_single_file`, which `except PDFLoadError` does not catch —
propagates, aborting the loop with the index mutations made so far.
Returns (index, total chunks, errors, uncaught exception if any). -/
def syncLoop (env : SyncEnv) (module_id : String) :
    List SrcFile → Index → Nat → List String →
    Index × Nat × List String × Option String
  | [], idx, total, errs => (idx, total, errs, none)
  | f :: fs, idx, total, errs =>
      match process_single_file env module_id f with
      | Except.ok chunks =>
          if chunks.isEmpty then
            syncLoop env module_id fs idx total errs
          else
            syncLoop env module_id fs (add_documents idx chunks)
              (total + chunks.length) errs
      | Except.error (.pdfLoadError e) =>
          let n := f.name
          syncLoop env module_id fs idx total (errs ++ [s!"{n}: {e}"])
      | Except.error (.documentLoadError e) =>
          (idx, total, errs, some e)

/-- Model of `sync_module`: ensure the document folder exists (create it
empty when absent); when no supported file is present return a success
report with zero files and chunks; otherwise optionally clear the
collection, then run the per-file loop; on completion the report's
`success` is `len(errors) == 0`; an uncaught exception aborts the run with
no report, the index keeping the mutations already made. -/
def sync_module (env : SyncEnv) (module_id : String)
    (folder : Option (List SrcFile)) (clear_first : Bool) (idx : Index) :
    Option (List SrcFile) × Index × Except String SyncReport :=
  let folder2 : Option (List SrcFile) := some (folder.getD [])
  let files := get_pdf_files folder2
  if files.isEmpty then
    (folder2, idx, Except.ok
      { files_processed := 0, chunks_added := 0, errors := [], success := true })
  else
    let idx1 := if clear_first then clear_collection idx else idx
    match syncLoop env module_id files idx1 0 [] with
    | (idx2, total, errs, none) =>
        (folder2, idx2, Except.ok
          { files_processed := files.length, chunks_added := total,
            errors := errs, success := errs.isEmpty })
    | (idx2, _, _, some e) =>
        (folder2, idx2, Except.error e)

/-- Report of `sync_single_file` (keys present in the dictionaries the
function returns). -/
structure SingleReport where
  success : Bool
  error : Option String := none
  file_name : Option String := none
  chunks_added : Option Nat := none
  deriving DecidableEq, Repr

/-- Model of `sync_single_file`: a missing file yields a failure report;
otherwise the file's existing points are deleted first (before the
`try`, so a missing collection raises uncaught), then the file is processed
and its chunks upserted; `process_single_file` and `add_documents` run
inside `try/except Exception`, whose failures yield a failure report. -/
def sync_single_file (env : SyncEnv) (module_id : String)
    (fileOnDisk : Bool) (f : SrcFile) (idx : Index) :
    Except String (Index × SingleReport) :=
  if ¬fileOnDisk then
    let n := f.name
    Except.ok (idx, { success := false, error := some s!"File not found: {n}" })
  else
    match delete_by_file idx f.name with
    | Except.error e => Except.error e
    | Except.ok idx1 =>
        match process_single_file env module_id f with
        | Except.ok chunks =>
            Except.ok (add_documents idx1 chunks,
              { success := true, file_name := some f.name,
                chunks_added := some chunks.length })
        | Except.error exc =>
            Except.ok (idx1, { success := false, error := some exc.msg })

/-! ## RAG engine (`rag_chain.py`)

The two external services are oracles: `search` models
`VectorStoreManager.similarity_search` — the composition of `embed_query`
and the Qdrant nearest-neighbour call, either of which may raise — indexed
by the ordinal of the call so that successive retrievals may observe
different backend states; `generate` models the `ChatOpenAI` +
`StrOutputParser` tail of a chain on the assembled prompt.  Search results
are the payloads of the returned points (`similarity_search` copies each
payload, plus the score, into a `Document`; the score is read by no caller
and is not represented). -/

inductive Prompt where
  | rag (context : String) (question : String)
  | conv (question : String)
  deriving DecidableEq, Repr

structure SearchCall where
  query : String
  k : Nat
  deriving DecidableEq, Repr

structure RagEnv where
  search : Nat → String → Nat → Except String (List Payload)
  generate : Prompt → Except String String

/-- Model of `RAGChainBuilder._format_documents`: an empty result list
yields "Aucun contexte disponible."; otherwise the fragments
"[Source i - Page p]\ncontent" (i from 1, content stripped) joined by
explicit delimiters. -/
def format_documents (docs : List Payload) : String :=
  if docs.isEmpty then "Aucun contexte disponible."
  else
    String.intercalate "\n\n---\n\n"
      (docs.enum.map (fun pr =>
        let i := pr.1 + 1
        let pg := pr.2.page
        let ct := String.mk (pyStrip pr.2.content.data)
        s!"[Source {i} - Page {pg}]\n{ct}"))

/-- Result dictionary of `RAGQueryHandler.ask`. -/
structure AskResult where
  answer : Option String
  sources : List Nat
  success : Bool
  error : Option String
  is_conversational : Bool
  deriving DecidableEq, Repr

/-- Failure dictionary built by the `except` branch of `ask`
(note `is_conversational` is reset to `False` there even for a
conversational question). -/
def askFailure (e : String) : AskResult :=
  { answer := none, sources := [], success := false,
    error := some e, is_conversational := false }

/-- CPython iteration order of `list(set(xs))` for non-negative small
integers: `hash(n) = n`, the table of a set of at most five elements has
eight slots, the slot of `n` is `n % 8`, and iteration walks the slots in
increasing order.  Within one slot (a collision, which no input below
exhibits) the order is approximated by `dedup` order.  The repository calls
this on the page numbers of the retrieved chunks. -/
def pySetToList (xs : List Nat) : List Nat :=
  ((List.range 8).map (fun s => xs.dedup.filter (fun x => x % 8 == s))).flatten

/-- Model of `RAGQueryHandler.ask` composed with `RAGChainBuilder.invoke`
(`invoke` re-evaluates `is_conversational_query(question)`; its value equals
the one `ask` just computed, so the two tests are merged into one branch):

* conversational question: the conversational chain generates from the
  persona prompt, no retrieval, `sources = []`;
* substantive question: the RAG chain retrieves (`k = 8`), formats the
  context, generates from the system prompt, and then `ask` runs a second,
  separate `similarity_search(question, k=8)` whose distinct pages become
  `sources` via `list(set(...))`;
* any exception raised inside the `try` is converted to
  `askFailure (str e)`.

Besides the result, the model returns the trace of `similarity_search`
calls and of the prompts submitted to the language model. -/
def ask (env : RagEnv) (question : String) :
    AskResult × List SearchCall × List Prompt :=
  if is_conversational_query question then
    match env.generate (.conv question) with
    | Except.error e => (askFailure e, [], [.conv question])
    | Except.ok answer =>
        ({ answer := some answer, sources := [], success := true,
           error := none, is_conversational := true },
         [], [.conv question])
  else
    match env.search 0 question 8 with
    | Except.error e => (askFailure e, [⟨question, 8⟩], [])
    | Except.ok ctxDocs =>
        let ctx := format_documents ctxDocs
        match env.generate (.rag ctx question) with
        | Except.error e => (askFailure e, [⟨question, 8⟩], [.rag ctx question])
        | Except.ok answer =>
            match env.search 1 question 8 with
            | Except.error e =>
                (askFailure e, [⟨question, 8⟩, ⟨question, 8⟩], [.rag ctx question])
            | Except.ok srcDocs =>
                ({ answer := some answer,
                   sources := pySetToList (srcDocs.map (fun d => d.page)),
                   success := true, error := none, is_conversational := false },
                 [⟨question, 8⟩, ⟨question, 8⟩], [.rag ctx question])

/-! ## Qdrant client and collection information (`vector_store.py`) -/

/-- Client oracle: `getCollections` models `client.get_collections()`
(the collection names, or the message of the connection error raised);
`getCollection` models `client.get_collection(name).points_count`. -/
structure QClient where
  getCollections : Except String (List String)
  getCollection : String → Except String Nat

/-- Model of `VectorStoreManager.collection_exists`: `True` iff listing the
collections succeeds and contains the name; every exception — including an
unreachable backend — is swallowed and reported as `False`. -/
def collection_exists (client : QClient) (name : String) : Bool :=
  match client.getCollections with
  | Except.ok cols => cols.contains name
  | Except.error _ => false

structure CollectionInfo where
  exists_ : Bool
  count : Nat
  deriving DecidableEq, Repr

/-- Model of `VectorStoreManager.get_collection_info`: a collection that
does not exist (per `collection_exists`) yields `{exists: False, count: 0}`;
otherwise `client.get_collection` is consulted and may itself raise. -/
def get_collection_info (client : QClient) (name : String) :
    Except String CollectionInfo :=
  if ¬collection_exists client name then Except.ok { exists_ := false, count := 0 }
  else
    match client.getCollection name with
    | Except.ok n => Except.ok { exists_ := true, count := n }
    | Except.error e => Except.error e

/-! ## Module configuration (`config.py`) -/

/-- Identifiers of the configured modules (`MODULES` keys). -/
def MODULES : List String := ["cgi", "cdt"]

/-- Collection name of each module (`collection_name` key). -/
def collection_name (module_id : String) : String :=
  if module_id == "cgi" then "cgi_maroc_docs" else "cdt_maroc_docs"

/-! ## FastAPI layer (`api.py`)

`get_module_resources` is modelled over an explicit cache
(`_module_resources`, module id to resources).  Chain construction on the
success path is modelled as succeeding: `api.py` passes `create_rag_chain`,
`RAGQueryHandler` and `ask` an extra argument relative to their
definitions in `src/rag_chain.py` (a superseded interface of that module);
only the success branch reaches those calls, and the claims settled here
concern the other branches. -/

structure Resources where
  success : Bool
  error : Option String
  num_vectors : Nat
  hasHandler : Bool
  deriving DecidableEq, Repr

/-- Empty-index message returned by `get_module_resources` (and by
`app.load_module_resources`). -/
def emptyIndexMsg (module_id : String) : String :=
  s!"La base vectorielle est vide. Exécutez: python sync_documents.py --module {module_id}"

/-- Message of the `ValueError` raised by `get_module_config` for an
unknown module id. -/
def unknownModuleMsg (module_id : String) : String :=
  s!"Module \x27{module_id}\x27 not found. Available: [\x27cgi\x27, \x27cdt\x27]"

/-- Model of `api.get_module_resources`: return the cached entry if present;
otherwise look the module up (an unknown id's `ValueError` is caught by the
surrounding `except`), read the collection info (exceptions caught
likewise), return the empty-index failure — uncached — when the collection
is absent or has zero points, and otherwise build and cache the
resources. -/
def api_get_module_resources (client : QClient)
    (cache : List (String × Resources)) (module_id : String) :
    Resources × List (String × Resources) :=
  match cache.lookup module_id with
  | some r => (r, cache)
  | none =>
      if ¬MODULES.contains module_id then
        ({ success := false, error := some (unknownModuleMsg module_id),
           num_vectors := 0, hasHandler := false }, cache)
      else
        match get_collection_info client (collection_name module_id) with
        | Except.error e =>
            ({ success := false, error := some e, num_vectors := 0,
               hasHandler := false }, cache)
        | Except.ok info =>
            if ¬info.exists_ ∨ info.count = 0 then
              ({ success := false, error := some (emptyIndexMsg module_id),
                 num_vectors := 0, hasHandler := false }, cache)
            else
              let r : Resources :=
                { success := true, error := none, num_vectors := info.count,
                  hasHandler := true }
              (r, cache ++ [(module_id, r)])

structure ChatResponse where
  success : Bool
  answer : Option String
  error : Option String
  deriving DecidableEq, Repr

/-- Model of the `/api/chat` endpoint: an unknown module id raises a 404
`HTTPException`; failed resources are returned as an error response without
touching the query handler; otherwise the handler's `ask` produces the
response.  Alongside the response, the trace of retrieval calls and of
generation prompts issued while serving the request is returned. -/
def chat (client : QClient) (ragEnv : RagEnv)
    (cache : List (String × Resources)) (module_id : String)
    (message : String) :
    Except String (ChatResponse × List SearchCall × List Prompt) :=
  if ¬MODULES.contains module_id then
    Except.error s!"404: Module \x27{module_id}\x27 not found"
  else
    let res := (api_get_module_resources client cache module_id).1
    if ¬res.success then
      Except.ok ({ success := false, answer := none, error := res.error }, [], [])
    else
      let r := ask ragEnv message
      Except.ok ({ success := r.1.success, answer := r.1.answer,
                   error := r.1.error }, r.2.1, r.2.2)

/-! ## Streamlit layer (`app.py`) -/

/-- Model of `app.load_module_resources` (the `(success, error, count)`
triple; the returned manager object is omitted): a collection with points
loads successfully; otherwise the document folder decides between the
"Aucun document trouvé" and the empty-index message; an exception reaching
the `except` branch is classified by substring-matching its text against
"Connection refused" / "connect" to choose between the Qdrant connectivity
hint and a generic message. -/
def app_load_module_resources (client : QClient) (module_id : String)
    (folderPath : String) (folder : Option (List SrcFile)) :
    Bool × Option String × Nat :=
  match get_collection_info client (collection_name module_id) with
  | Except.ok info =>
      if info.exists_ && info.count > 0 then (true, none, info.count)
      else if (get_pdf_files folder).isEmpty then
        (false, some s!"Aucun document trouvé dans le dossier \x27{folderPath}\x27. Ajoutez des fichiers PDF et exécutez: python sync_documents.py --module {module_id}", 0)
      else (false, some (emptyIndexMsg module_id), 0)
  | Except.error e =>
      if isSub "Connection refused".data e.data ||
         isSub "connect".data (pyLower e.data) then
        (false, some "Impossible de se connecter à Qdrant. Assurez-vous que Qdrant est en cours d\x27exécution.", 0)
      else (false, some s!"Erreur inattendue: {e}", 0)

/-! ## Concrete instances used by counterexamples and witnesses -/

/-- Sync environment whose splitter returns its input unchanged (each page
short enough to stay one chunk) and with `python-docx` installed. -/
def envId : SyncEnv := { splitter := id, docxInstalled := true }

/-- Sync environment with the optional `python-docx` dependency missing. -/
def envNoDocx : SyncEnv := { splitter := id, docxInstalled := false }

/-- Well-formed two-page PDF file. -/
def pdfFileA : SrcFile :=
  { name := "a.pdf", ext := ".pdf",
    pdfLoad := Except.ok
      [{ page_content := "Article 1", page := some 1 },
       { page_content := "Article 2", page := some 2 }] }

/-- Word file whose load needs the missing optional dependency. -/
def docxFileB : SrcFile :=
  { name := "b.docx", ext := ".docx", docxText := Except.ok "texte" }

/-- Retrieval result payload carrying a given page number. -/
def payloadPage (n : Nat) : Payload :=
  { content := "texte", file_name := "a.pdf", page := n, chunk_id := 0,
    source := "", module := "cgi" }

/-- RAG environment whose retrievals return chunks on pages 2 and 9 and
whose generation succeeds. -/
def ragEnvPages : RagEnv :=
  { search := fun _ _ _ => Except.ok [payloadPage 2, payloadPage 9],
    generate := fun _ => Except.ok "réponse" }

/-- RAG environment whose two retrievals observe different backend
contents: the first call returns a page-1 chunk, every later call a page-2
chunk. -/
def ragEnvShift : RagEnv :=
  { search := fun n _ _ =>
      if n == 0 then Except.ok [payloadPage 1] else Except.ok [payloadPage 2],
    generate := fun _ => Except.ok "réponse" }

/-- RAG environment whose vector index raises on every search and whose
generation raises as well. -/
def ragEnvDown : RagEnv :=
  { search := fun _ _ _ => Except.error "index unreachable",
    generate := fun _ => Except.error "llm unreachable" }

/-- Substantive sample question. -/
def qTva : String := "Quel est le taux de TVA sur les produits alimentaires ?"

/-- Qdrant client whose backend is unreachable: every call raises a
connection error. -/
def clientDown : QClient :=
  { getCollections := Except.error "Connection refused",
    getCollection := fun _ => Except.error "Connection refused" }

/-- Qdrant client that is reachable but holds no collection at all. -/
def clientNoColl : QClient :=
  { getCollections := Except.ok [], getCollection := fun _ => Except.ok 0 }

/-- Qdrant client whose `cgi` collection exists with zero points. -/
def clientEmptyCgi : QClient :=
  { getCollections := Except.ok ["cgi_maroc_docs"],
    getCollection := fun _ => Except.ok 0 }

/-- Payloads `pdfFileA` contributes to the index under `envId`. -/
def chunkA1 : Payload :=
  { content := "Article 1", file_name := "a.pdf", page := 1, chunk_id := 0,
    source := "", module := "cgi" }

def chunkA2 : Payload :=
  { content := "Article 2", file_name := "a.pdf", page := 2, chunk_id := 1,
    source := "", module := "cgi" }

/-- Report of a successful single-file sync of `pdfFileA`. -/
def reportA : SingleReport :=
  { success := true, file_name := some "a.pdf", chunks_added := some 2 }

end Iyya

/-! ## Shared helper lemmas -/

namespace Iyya

/-- Membership in the model of `list(set(xs))` coincides with membership in
`xs`: the conversion neither loses nor invents pages. -/
theorem mem_pySetToList {a : Nat} {xs : List Nat} :
    a ∈ pySetToList xs ↔ a ∈ xs := by
  unfold pySetToList
  rw [List.mem_flatten]
  constructor
  · rintro ⟨l, hl, hal⟩
    rw [List.mem_map] at hl
    obtain ⟨s, _, rfl⟩ := hl
    rw [List.mem_filter] at hal
    exact List.mem_dedup.mp hal.1
  · intro h
    refine ⟨xs.dedup.filter (fun x => x % 8 == a % 8), ?_, ?_⟩
    · rw [List.mem_map]
      exact ⟨a % 8, by simpa using Nat.mod_lt a (by norm_num), rfl⟩
    · rw [List.mem_filter]
      exact ⟨List.mem_dedup.mpr h, by simp⟩

/-- The model of `list(set(xs))` has no duplicates. -/
theorem nodup_pySetToList (xs : List Nat) : (pySetToList xs).Nodup := by
  unfold pySetToList
  rw [List.nodup_flatten]
  constructor
  · intro l hl
    rw [List.mem_map] at hl
    obtain ⟨s, _, rfl⟩ := hl
    exact (List.nodup_dedup xs).filter _
  · rw [List.pairwise_map]
    refine (List.nodup_range 8).imp ?_
    intro s t hst a ha hat
    rw [List.mem_filter] at ha hat
    exact hst (by
      have h1 : a % 8 = s := by simpa using ha.2
      have h2 : a % 8 = t := by simpa using hat.2
      omega)

/-- Deleting a file's points leaves no point with that file name. -/
theorem filter_ne_then_eq (ps : List Payload) (n : String) :
    (ps.filter (fun p => p.file_name ≠ n)).filter (fun p => p.file_name = n) = [] := by
  induction ps with
  | nil => rfl
  | cons a t ih =>
      by_cases h : a.file_name = n
      · simp [List.filter, h, ih]
      · simp [List.filter, h, ih]

/-- Every chunk produced by `split_documents` carries the stamped file
name in its payload, so filtering by that name keeps all of them. -/
theorem filter_split_payloads (env : SyncEnv) (mid : String)
    (docs : List PyDoc) (fn : String) :
    ((split_documents env mid docs fn).map payloadOf).filter
        (fun p => p.file_name = fn)
      = (split_documents env mid docs fn).map payloadOf := by
  apply List.filter_eq_self.mpr
  intro p hp
  rw [List.mem_map] at hp
  obtain ⟨d, hd, rfl⟩ := hp
  unfold split_documents at hd
  rw [List.mem_map] at hd
  obtain ⟨pr, _, rfl⟩ := hd
  simp [payloadOf]

/-- Chunks returned by a successful `process_single_file` are exactly a
`split_documents` result for the file's name. -/
theorem process_single_file_ok_shape (env : SyncEnv) (mid : String)
    (f : SrcFile) (chunks : List PyDoc)
    (h : process_single_file env mid f = Except.ok chunks) :
    ∃ docs, chunks = split_documents env mid docs f.name := by
  unfold process_single_file at h
  cases hl : load_single_pdf env mid f with
  | ok docs =>
      rw [hl] at h
      exact ⟨docs, by injection h with h2; exact h2.symm⟩
  | error e => rw [hl] at h; cases h

/-- Number of chunks the file contributes to the index after one
`sync_single_file` on an existing collection: the file's fresh chunk count
on success, zero on a caught per-file failure — in both cases independent
of the collection's prior contents, and the collection still exists. -/
theorem countFile_after_single_sync (env : SyncEnv) (mid : String)
    (f : SrcFile) (ps : List Payload) (idx1 : Index) (r1 : SingleReport)
    (h : sync_single_file env mid true f (some ps) = Except.ok (idx1, r1)) :
    (∃ qs, idx1 = some qs) ∧
    countFile idx1 f.name =
      (match process_single_file env mid f with
       | Except.ok chunks => chunks.length
       | Except.error _ => 0) := by
  have h' : (match process_single_file env mid f with
      | Except.ok chunks =>
          Except.ok (ε := String)
            (add_documents (some (ps.filter (fun p => p.file_name ≠ f.name))) chunks,
             ({ success := true, file_name := some f.name,
                chunks_added := some chunks.length } : SingleReport))
      | Except.error exc =>
          Except.ok (some (ps.filter (fun p => p.file_name ≠ f.name)),
            ({ success := false, error := some exc.msg } : SingleReport)))
      = Except.ok (idx1, r1) := h
  cases hres : process_single_file env mid f with
  | ok chunks =>
      rw [hres] at h'
      obtain ⟨docs, hdocs⟩ := process_single_file_ok_shape env mid f chunks hres
      injection h' with h2
      have hidx : idx1 =
          some (ps.filter (fun p => p.file_name ≠ f.name) ++ chunks.map payloadOf) := by
        have h3 := congrArg Prod.fst h2
        simpa [add_documents, create_collection] using h3.symm
      refine ⟨⟨_, hidx⟩, ?_⟩
      rw [hidx]
      simp only [countFile, List.filter_append, List.length_append,
        filter_ne_then_eq, List.length_nil, Nat.zero_add]
      rw [hdocs, filter_split_payloads, List.length_map]
  | error exc =>
      rw [hres] at h'
      injection h' with h2
      have hidx : idx1 = some (ps.filter (fun p => p.file_name ≠ f.name)) :=
        (congrArg Prod.fst h2).symm
      refine ⟨⟨_, hidx⟩, ?_⟩
      rw [hidx]
      simp only [countFile, filter_ne_then_eq, List.length_nil]

/-- Whenever `sync_module` completes with a report, the report's `success`
field is the emptiness of its error list (it is computed as
`len(errors) == 0` at both return sites). -/
theorem sync_module_success_eq (env : SyncEnv) (mid : String)
    (folder : Option (List SrcFile)) (clear_first : Bool) (idx : Index)
    (f2 : Option (List SrcFile)) (i2 : Index) (r : SyncReport)
    (h : sync_module env mid folder clear_first idx = (f2, i2, Except.ok r)) :
    r.success = r.errors.isEmpty := by
  simp only [sync_module] at h
  split at h
  · simp only [Prod.mk.injEq, Except.ok.injEq] at h
    obtain ⟨-, -, hr⟩ := h
    subst hr
    rfl
  · repeat' split at h
    all_goals
      first
      | (simp only [Prod.mk.injEq, Except.ok.injEq] at h
         obtain ⟨-, -, hr⟩ := h
         subst hr
         rfl)
      | simp at h

end Iyya

/-! ## Claim theorems -/

/-- C5: the query classifier returns Conversational (here: the boolean
`is_conversational_query` is `true`) for "Bonjour", "Merci beaucoup" and
"ok", and Substantive (`false`) for
"Quel est le taux de TVA sur les produits alimentaires ?". -/
theorem C5_classifier_examples :
    Iyya.is_conversational_query "Bonjour" = true ∧
    Iyya.is_conversational_query "Merci beaucoup" = true ∧
    Iyya.is_conversational_query "ok" = true ∧
    Iyya.is_conversational_query "Quel est le taux de TVA sur les produits alimentaires ?" = false := by
  refine ⟨by decide, by decide, by decide, by decide⟩

/-- C1 (counterexample): re-syncing an unchanged file via the batch sync of
its module without `clear_first` does not leave the chunk count unchanged —
`sync_module` deletes nothing before inserting, so the two-chunk file
`a.pdf` holds 4 chunks after the second sync against 2 after the first. -/
theorem C1_batch_resync_duplicates_counterexample :
    Iyya.countFile
        (Iyya.sync_module Iyya.envId "cgi" (some [Iyya.pdfFileA]) false
          (Iyya.sync_module Iyya.envId "cgi" (some [Iyya.pdfFileA]) false none).2.1).2.1
        "a.pdf" = 4 ∧
    Iyya.countFile
        (Iyya.sync_module Iyya.envId "cgi" (some [Iyya.pdfFileA]) false none).2.1
        "a.pdf" = 2 ∧
    (4 : Nat) ≠ 2 :=
  ⟨by decide, by decide, by decide⟩

/-- C1 (amended): only the single-file sync deletes a file's existing
chunks before re-inserting, so re-syncing an unchanged file via
`sync_single_file` leaves the index with the same number of chunks for that
file as after the first sync; the batch `sync_module` performs no per-file
delete, and without `clear_first` a batch re-sync duplicates the file's
chunks. -/
theorem C1_single_file_resync_idempotent
    (env : Iyya.SyncEnv) (mid : String) (f : Iyya.SrcFile) (c : List Iyya.Payload)
    (idx1 idx2 : Iyya.Index) (r1 r2 : Iyya.SingleReport)
    (h1 : Iyya.sync_single_file env mid true f (some c) = Except.ok (idx1, r1))
    (h2 : Iyya.sync_single_file env mid true f idx1 = Except.ok (idx2, r2)) :
    Iyya.countFile idx2 f.name = Iyya.countFile idx1 f.name := by
  obtain ⟨⟨qs, hq⟩, hc1⟩ := Iyya.countFile_after_single_sync env mid f c idx1 r1 h1
  rw [hq] at h2
  obtain ⟨-, hc2⟩ := Iyya.countFile_after_single_sync env mid f qs idx2 r2 h2
  rw [hc1, hc2]

/-- Witness for C1: a concrete first and second single-file sync of the
two-page `a.pdf`, both hypotheses discharged by evaluation. -/
theorem C1_single_file_resync_idempotent_witness :
    Iyya.sync_single_file Iyya.envId "cgi" true Iyya.pdfFileA (some []) =
      Except.ok (some [Iyya.chunkA1, Iyya.chunkA2], Iyya.reportA) ∧
    Iyya.sync_single_file Iyya.envId "cgi" true Iyya.pdfFileA
        (some [Iyya.chunkA1, Iyya.chunkA2]) =
      Except.ok (some [Iyya.chunkA1, Iyya.chunkA2], Iyya.reportA) ∧
    Iyya.countFile (some [Iyya.chunkA1, Iyya.chunkA2]) Iyya.pdfFileA.name =
      Iyya.countFile (some [Iyya.chunkA1, Iyya.chunkA2]) Iyya.pdfFileA.name :=
  ⟨by decide, by decide,
   C1_single_file_resync_idempotent Iyya.envId "cgi" Iyya.pdfFileA []
     (some [Iyya.chunkA1, Iyya.chunkA2]) (some [Iyya.chunkA1, Iyya.chunkA2])
     Iyya.reportA Iyya.reportA (by decide) (by decide)⟩

/-- C2 (code bug, evaluated at the failing input): in a batch sync of a
folder holding a well-formed `a.pdf` and a `b.docx` whose load raises
`DocumentLoadError` (missing `python-docx`), the error is not recorded in
the report and processing does not continue — the exception escapes the
`except PDFLoadError` handler of `process_all_files` and aborts the whole
run with no report, `a.pdf`'s chunks already written. -/
theorem C2_per_file_error_aborts_batch :
    (Iyya.sync_module Iyya.envNoDocx "cgi"
        (some [Iyya.pdfFileA, Iyya.docxFileB]) false none).2.2 =
      Except.error
        "python-docx n\x27est pas installé. Exécutez: pip install python-docx" ∧
    Iyya.countFile
        (Iyya.sync_module Iyya.envNoDocx "cgi"
          (some [Iyya.pdfFileA, Iyya.docxFileB]) false none).2.1 "a.pdf" = 2 :=
  ⟨by decide, by decide⟩

/-- C9: a batch sync report's `success` flag is true exactly when its
per-file error list is empty, and syncing a module whose document folder is
absent creates the folder and returns a successful report with zero files
processed and zero chunks added, the collection untouched. -/
theorem C9_sync_report_success_iff_no_errors
    (env : Iyya.SyncEnv) (mid : String) (folder : Option (List Iyya.SrcFile))
    (clear_first : Bool) (idx : Iyya.Index) :
    (∀ f2 i2 r, Iyya.sync_module env mid folder clear_first idx = (f2, i2, Except.ok r) →
        (r.success = true ↔ r.errors = [])) ∧
    Iyya.sync_module env mid none clear_first idx =
      (some [], idx, Except.ok
        { files_processed := 0, chunks_added := 0, errors := [], success := true }) := by
  constructor
  · intro f2 i2 r h
    rw [Iyya.sync_module_success_eq env mid folder clear_first idx f2 i2 r h]
    cases r.errors <;> simp
  · rfl

/-- Witness for C9: the universally quantified report part applied to a
concrete successful sync of `a.pdf`. -/
theorem C9_sync_report_success_iff_no_errors_witness :
    Iyya.sync_module Iyya.envId "cgi" (some [Iyya.pdfFileA]) false none =
      (some [Iyya.pdfFileA], some [Iyya.chunkA1, Iyya.chunkA2], Except.ok
        { files_processed := 1, chunks_added := 2, errors := [], success := true }) ∧
    (({ files_processed := 1, chunks_added := 2, errors := [],
        success := true } : Iyya.SyncReport).success = true ↔
      ({ files_processed := 1, chunks_added := 2, errors := [],
         success := true } : Iyya.SyncReport).errors = []) :=
  ⟨by decide,
   (C9_sync_report_success_iff_no_errors Iyya.envId "cgi" (some [Iyya.pdfFileA])
      false none).1 (some [Iyya.pdfFileA]) (some [Iyya.chunkA1, Iyya.chunkA2]) _
      (by decide)⟩

/-- C3: a query against a module whose collection does not exist or has
zero points returns the explicit empty-index "run sync first" response,
detected before any retrieval is attempted (no similarity-search call in
the trace) and without the generation service ever being invoked (no prompt
in the trace). -/
theorem C3_empty_index_short_circuits
    (client : Iyya.QClient) (ragEnv : Iyya.RagEnv)
    (cache : List (String × Iyya.Resources)) (mid message : String)
    (info : Iyya.CollectionInfo)
    (hmod : Iyya.MODULES.contains mid = true)
    (hnc : cache.lookup mid = none)
    (hinfo : Iyya.get_collection_info client (Iyya.collection_name mid) = Except.ok info)
    (hempty : info.exists_ = false ∨ info.count = 0) :
    Iyya.chat client ragEnv cache mid message =
      Except.ok ({ success := false, answer := none,
                   error := some (Iyya.emptyIndexMsg mid) }, [], []) := by
  have hmem : mid ∈ Iyya.MODULES := by simpa using hmod
  have hres : Iyya.api_get_module_resources client cache mid =
      ({ success := false, error := some (Iyya.emptyIndexMsg mid),
         num_vectors := 0, hasHandler := false }, cache) := by
    simp [Iyya.api_get_module_resources, hnc, hmem, hinfo, hempty]
  simp [Iyya.chat, hmem, hres]

/-- Witness for C3: the `cgi` collection exists with zero points; the chat
endpoint returns the empty-index response with empty retrieval and
generation traces. -/
theorem C3_empty_index_short_circuits_witness :
    Iyya.MODULES.contains "cgi" = true ∧
    Iyya.chat Iyya.clientEmptyCgi Iyya.ragEnvDown [] "cgi" Iyya.qTva =
      Except.ok ({ success := false, answer := none,
                   error := some (Iyya.emptyIndexMsg "cgi") }, [], []) :=
  ⟨by decide,
   C3_empty_index_short_circuits Iyya.clientEmptyCgi Iyya.ragEnvDown [] "cgi"
     Iyya.qTva { exists_ := true, count := 0 } (by decide) rfl (by decide)
     (Or.inr rfl)⟩

/-- C6 (counterexample): with the backend unreachable (every client call
raises "Connection refused"), `get_module_resources` returns a result
byte-identical to the one for a reachable backend with no collection — the
generic empty-index failure — so no distinct `IndexUnavailableError`
surfaces to the caller. -/
theorem C6_unreachable_equals_empty_counterexample :
    (Iyya.api_get_module_resources Iyya.clientDown [] "cgi").1 =
      (Iyya.api_get_module_resources Iyya.clientNoColl [] "cgi").1 ∧
    (Iyya.api_get_module_resources Iyya.clientDown [] "cgi").1 =
      { success := false, error := some (Iyya.emptyIndexMsg "cgi"),
        num_vectors := 0, hasHandler := false } :=
  ⟨by decide, by decide⟩

/-- C6 (amended): the code defines no `IndexUnavailableError`;
`collection_exists` swallows every exception of the collection listing, so
an unreachable backend is reported as a non-existent collection, and both
the API resource loader and the Streamlit loader (for a non-empty document
folder) return the generic empty-index "run sync" failure,
indistinguishable from a genuinely empty index; the Streamlit "start
Qdrant" hint is produced only by substring-matching an exception message,
which this swallowing makes unreachable on this path. -/
theorem C6_unreachable_swallowed (e : String) (cnt : String → Except String Nat)
    (name mid : String) (hm : Iyya.MODULES.contains mid = true) :
    Iyya.collection_exists ⟨Except.error e, cnt⟩ name = false ∧
    Iyya.get_collection_info ⟨Except.error e, cnt⟩ name =
      Except.ok { exists_ := false, count := 0 } ∧
    (Iyya.api_get_module_resources ⟨Except.error e, cnt⟩ [] mid).1 =
      { success := false, error := some (Iyya.emptyIndexMsg mid),
        num_vectors := 0, hasHandler := false } ∧
    ∀ folderPath folder, Iyya.get_pdf_files folder ≠ [] →
      Iyya.app_load_module_resources ⟨Except.error e, cnt⟩ mid folderPath folder =
        (false, some (Iyya.emptyIndexMsg mid), 0) := by
  have hmem : mid ∈ Iyya.MODULES := by simpa using hm
  refine ⟨rfl, ?_, ?_, ?_⟩
  · simp [Iyya.get_collection_info, Iyya.collection_exists]
  · simp [Iyya.api_get_module_resources, hmem, Iyya.get_collection_info,
      Iyya.collection_exists]
  · intro folderPath folder hne
    simp [Iyya.app_load_module_resources, Iyya.get_collection_info,
      Iyya.collection_exists, List.isEmpty_iff, hne]

/-- Witness for C6: the unreachable client evaluated on module `cgi` and a
folder holding one PDF. -/
theorem C6_unreachable_swallowed_witness :
    Iyya.MODULES.contains "cgi" = true ∧
    Iyya.collection_exists Iyya.clientDown "cgi_maroc_docs" = false ∧
    (Iyya.api_get_module_resources Iyya.clientDown [] "cgi").1 =
      { success := false, error := some (Iyya.emptyIndexMsg "cgi"),
        num_vectors := 0, hasHandler := false } ∧
    Iyya.app_load_module_resources Iyya.clientDown "cgi" "documents/cgi"
        (some [Iyya.pdfFileA]) = (false, some (Iyya.emptyIndexMsg "cgi"), 0) := by
  have h := C6_unreachable_swallowed "Connection refused"
    (fun _ => Except.error "Connection refused") "cgi_maroc_docs" "cgi" (by decide)
  exact ⟨by decide, h.1, h.2.2.1,
    h.2.2.2 "documents/cgi" (some [Iyya.pdfFileA]) (by decide)⟩

/-- C4 (counterexample): with both retrievals returning chunks on pages 2
and 9, `ask` reports `sources = [9, 2]` (CPython set-iteration order),
not the numerically ascending `[2, 9]` the claim requires — the code
applies `list(set(...))` with no sort and no non-numeric handling. -/
theorem C4_sources_unsorted_counterexample :
    (Iyya.ask Iyya.ragEnvPages Iyya.qTva).1.sources = [9, 2] ∧
    ([9, 2] : List Nat) ≠ [2, 9] :=
  ⟨by decide, by decide⟩

/-- C4 (amended): for a substantive query that succeeds, the returned
sources are the distinct page numbers of the chunks of the second
retrieval, in Python set-iteration order — deduplicated (no duplicates,
and exactly the retrieved pages) but not numerically sorted; on this path
the page metadata always carries an integer (payload default 0), so no
"N/A" marker occurs. -/
theorem C4_sources_distinct_pages_set_order
    (env : Iyya.RagEnv) (q a : String) (d0 d1 : List Iyya.Payload)
    (hconv : Iyya.is_conversational_query q = false)
    (h0 : env.search 0 q 8 = Except.ok d0)
    (hg : env.generate (Iyya.Prompt.rag (Iyya.format_documents d0) q) = Except.ok a)
    (h1 : env.search 1 q 8 = Except.ok d1) :
    (Iyya.ask env q).1.sources = Iyya.pySetToList (d1.map (fun d => d.page)) ∧
    (Iyya.ask env q).1.sources.Nodup ∧
    ∀ p, p ∈ (Iyya.ask env q).1.sources ↔ p ∈ d1.map (fun d => d.page) := by
  have hask : (Iyya.ask env q).1.sources = Iyya.pySetToList (d1.map (fun d => d.page)) := by
    simp [Iyya.ask, hconv, h0, hg, h1]
  refine ⟨hask, hask ▸ Iyya.nodup_pySetToList _, fun p => hask ▸ Iyya.mem_pySetToList⟩

/-- Witness for C4 (amended): the page-2/page-9 environment. -/
theorem C4_sources_distinct_pages_set_order_witness :
    Iyya.is_conversational_query Iyya.qTva = false ∧
    (Iyya.ask Iyya.ragEnvPages Iyya.qTva).1.sources =
      Iyya.pySetToList ([Iyya.payloadPage 2, Iyya.payloadPage 9].map (fun d => d.page)) :=
  ⟨by decide,
   (C4_sources_distinct_pages_set_order Iyya.ragEnvPages Iyya.qTva "réponse"
      [Iyya.payloadPage 2, Iyya.payloadPage 9] [Iyya.payloadPage 2, Iyya.payloadPage 9]
      (by decide) rfl rfl rfl).1⟩

/-- C7: every failure raised while answering — by the vector index or
embedding service (either similarity search) or by the generation service
(either chain) — is caught at the `ask` boundary and converted into the
structured `{success: false, error: msg}` result with a null answer and
empty sources; and unconditionally, `ask` returns either a success with no
error or exactly such a structured failure (it is a total function of its
environment: no exception propagates). -/
theorem C7_ask_errors_structured (env : Iyya.RagEnv) (q : String) :
    (∀ e, Iyya.is_conversational_query q = true →
        env.generate (Iyya.Prompt.conv q) = Except.error e →
        (Iyya.ask env q).1 = Iyya.askFailure e) ∧
    (∀ e, Iyya.is_conversational_query q = false →
        env.search 0 q 8 = Except.error e →
        (Iyya.ask env q).1 = Iyya.askFailure e) ∧
    (∀ e d0, Iyya.is_conversational_query q = false →
        env.search 0 q 8 = Except.ok d0 →
        env.generate (Iyya.Prompt.rag (Iyya.format_documents d0) q) = Except.error e →
        (Iyya.ask env q).1 = Iyya.askFailure e) ∧
    (∀ e d0 a, Iyya.is_conversational_query q = false →
        env.search 0 q 8 = Except.ok d0 →
        env.generate (Iyya.Prompt.rag (Iyya.format_documents d0) q) = Except.ok a →
        env.search 1 q 8 = Except.error e →
        (Iyya.ask env q).1 = Iyya.askFailure e) ∧
    (((Iyya.ask env q).1.success = true ∧ (Iyya.ask env q).1.error = none) ∨
      ((Iyya.ask env q).1.success = false ∧ (Iyya.ask env q).1.answer = none ∧
       (Iyya.ask env q).1.sources = [] ∧ (Iyya.ask env q).1.error ≠ none)) := by
  refine ⟨?_, ?_, ?_, ?_, ?_⟩
  · intro e hc hg
    simp [Iyya.ask, hc, hg]
  · intro e hc hs
    simp [Iyya.ask, hc, hs]
  · intro e d0 hc hs hg
    simp [Iyya.ask, hc, hs, hg]
  · intro e d0 a hc hs hg hs1
    simp [Iyya.ask, hc, hs, hg, hs1]
  · by_cases hc : Iyya.is_conversational_query q = true
    · cases hg : env.generate (Iyya.Prompt.conv q) with
      | error e => right; simp [Iyya.ask, hc, hg, Iyya.askFailure]
      | ok a => left; simp [Iyya.ask, hc, hg]
    · rw [Bool.not_eq_true] at hc
      cases hs : env.search 0 q 8 with
      | error e => right; simp [Iyya.ask, hc, hs, Iyya.askFailure]
      | ok d0 =>
          cases hg : env.generate (Iyya.Prompt.rag (Iyya.format_documents d0) q) with
          | error e => right; simp [Iyya.ask, hc, hs, hg, Iyya.askFailure]
          | ok a =>
              cases hs1 : env.search 1 q 8 with
              | error e => right; simp [Iyya.ask, hc, hs, hg, hs1, Iyya.askFailure]
              | ok d1 => left; simp [Iyya.ask, hc, hs, hg, hs1]

/-- Witness for C7: an environment whose index raises on every search,
asked the substantive sample question, yields the structured failure. -/
theorem C7_ask_errors_structured_witness :
    Iyya.is_conversational_query Iyya.qTva = false ∧
    (Iyya.ask Iyya.ragEnvDown Iyya.qTva).1 = Iyya.askFailure "index unreachable" :=
  ⟨by decide,
   (C7_ask_errors_structured Iyya.ragEnvDown Iyya.qTva).2.1 "index unreachable"
     (by decide) rfl⟩

/-- C8: a question classified as Conversational is answered through the
lightweight persona prompt alone — the only prompt in the generation trace
is the conversational one — with no retrieval call against the vector index
and an empty `sources` list. -/
theorem C8_conversational_no_retrieval (env : Iyya.RagEnv) (q : String)
    (h : Iyya.is_conversational_query q = true) :
    (Iyya.ask env q).2.1 = [] ∧
    (Iyya.ask env q).2.2 = [Iyya.Prompt.conv q] ∧
    (Iyya.ask env q).1.sources = [] := by
  cases hg : env.generate (Iyya.Prompt.conv q) with
  | error e => simp [Iyya.ask, h, hg, Iyya.askFailure]
  | ok a => simp [Iyya.ask, h, hg]

/-- Witness for C8: "Bonjour" against the page-returning environment does
not touch the index. -/
theorem C8_conversational_no_retrieval_witness :
    Iyya.is_conversational_query "Bonjour" = true ∧
    (Iyya.ask Iyya.ragEnvPages "Bonjour").2.1 = [] ∧
    (Iyya.ask Iyya.ragEnvPages "Bonjour").2.2 = [Iyya.Prompt.conv "Bonjour"] ∧
    (Iyya.ask Iyya.ragEnvPages "Bonjour").1.sources = [] := by
  have h := C8_conversational_no_retrieval Iyya.ragEnvPages "Bonjour" (by decide)
  exact ⟨by decide, h.1, h.2.1, h.2.2⟩

/-- C10: a substantive question that succeeds triggers exactly two
retrieval calls with the same query and k = 8 — one inside the generation
chain, whose results (the first call's) are formatted into the prompt
context, and an independent second `similarity_search` afterwards, whose
results alone determine the reported sources. -/
theorem C10_double_retrieval (env : Iyya.RagEnv) (q a : String)
    (d0 d1 : List Iyya.Payload)
    (hconv : Iyya.is_conversational_query q = false)
    (h0 : env.search 0 q 8 = Except.ok d0)
    (hg : env.generate (Iyya.Prompt.rag (Iyya.format_documents d0) q) = Except.ok a)
    (h1 : env.search 1 q 8 = Except.ok d1) :
    (Iyya.ask env q).2.1 = [⟨q, 8⟩, ⟨q, 8⟩] ∧
    (Iyya.ask env q).2.2 = [Iyya.Prompt.rag (Iyya.format_documents d0) q] ∧
    (Iyya.ask env q).1.sources = Iyya.pySetToList (d1.map (fun d => d.page)) := by
  simp [Iyya.ask, hconv, h0, hg, h1]

/-- Witness for C10: an environment whose two retrievals observe different
backend contents — the prompt context is built from the first call's
page-1 chunk while the reported sources come from the second call's page-2
chunk. -/
theorem C10_double_retrieval_witness :
    Iyya.is_conversational_query Iyya.qTva = false ∧
    (Iyya.ask Iyya.ragEnvShift Iyya.qTva).2.1 = [⟨Iyya.qTva, 8⟩, ⟨Iyya.qTva, 8⟩] ∧
    (Iyya.ask Iyya.ragEnvShift Iyya.qTva).2.2 =
      [Iyya.Prompt.rag (Iyya.format_documents [Iyya.payloadPage 1]) Iyya.qTva] ∧
    (Iyya.ask Iyya.ragEnvShift Iyya.qTva).1.sources =
      Iyya.pySetToList ([Iyya.payloadPage 2].map (fun d => d.page)) := by
  have h := C10_double_retrieval Iyya.ragEnvShift Iyya.qTva "réponse"
    [Iyya.payloadPage 1] [Iyya.payloadPage 2] (by decide) rfl rfl rfl
  exact ⟨by decide, h.1, h.2.1, h.2.2⟩
